import Mathlib

/-!
Formal model of the `books.py` spider (scrapy-web-scraping).

The source is a single Scrapy spider that crawls a paginated catalog site.
Its callback `response_parser` iterates over the nodes matching
`article.product_pod`, yields one dict per node with `title` and `price`
obtained via `extract_first` (which returns the first match or `None`),
then reads the first `li.next a::attr(href)` value and, if it is truthy
(Python truthiness: `None` and the empty string are falsy), yields a
follow-up request for the resolved URL.  `book_spider_result` accumulates
every scraped item, in emission order, into a list and returns that list.
The `__main__` block derives CSV column names from the first record and
writes a header row plus one data row per record, rendering `None` as the
empty string.

Pages are modelled by the data `response_parser` actually inspects: the
list of product-pod nodes (each carrying the lists of strings that its two
CSS selectors match, in document order) and the list of `li.next a` nodes
(each carrying its optional `href` attribute), plus the response URL used
for relative-link resolution.
-/

set_option autoImplicit false

namespace Books

/-- Result of a scoped CSS selection inside one `article.product_pod` node:
`title_attrs` are the matched values of `h3 > a::attr(title)`,
`price_texts` are the matched values of `.price_color::text`,
each in document order. -/
structure ProductPod where
  title_attrs : List String
  price_texts : List String
  deriving DecidableEq

/-- One scraped item, the dict literal of lines 16-19 of `books.py`:
keys `title` and `price` in that insertion order, values optional strings
(`None` when the selector matched nothing). -/
structure Record where
  title : Option String
  price : Option String
  deriving DecidableEq

/-- A fetched and parsed page as seen by `response_parser`:
the response URL, the `article.product_pod` nodes in document order, and
the `li.next a` nodes in document order, each with its optional `href`
attribute (a node may lack the attribute). -/
structure Response where
  url : String
  product_pods : List ProductPod
  next_nodes : List (Option String)
  deriving DecidableEq

/-- SelectorList.extract_first: first extracted value, or None when the
selection matched nothing. -/
def extract_first (l : List String) : Option String := l.head?

/-- The selection `li.next a::attr(href)`: the href values of the next
nodes that actually carry the attribute, in document order. -/
def next_hrefs (r : Response) : List String := r.next_nodes.filterMap id

/-- Line 21 of `books.py`: `response.css(li.next a::attr(href)).extract_first()`. -/
def next_page_link (r : Response) : Option String := extract_first (next_hrefs r)

/-- The record built for one product-pod node (lines 16-19):
each field is `extract_first` of its scoped selection. -/
def podRecord (s : ProductPod) : Record :=
  { title := extract_first s.title_attrs, price := extract_first s.price_texts }

/-- What one invocation of the callback yields: scraped items and follow-up
requests, in yield order. -/
inductive ParserOutput where
  | item (r : Record)
  | request (url : String)
  deriving DecidableEq

/-- Lines 14-23 of `books.py`: yield one item per `article.product_pod`
node, in document order, then check `if next_page_link:` (Python
truthiness, so `None` and the empty string both fail) and, when truthy,
yield a request for the href resolved against the response URL
(`response.follow`).  `resolve` stands for the urljoin performed by
`response.follow`. -/
def responseParser (resolve : String → String → String) (r : Response) :
    List ParserOutput :=
  r.product_pods.map (fun s => ParserOutput.item (podRecord s)) ++
    (match next_page_link r with
     | some href =>
         if href = "" then [] else [ParserOutput.request (resolve r.url href)]
     | none => [])

/-- Spec section 4.2 contract `extract`: the item-yielding part of the
callback, one record per product-pod node in document order. -/
def extract (r : Response) : List Record := r.product_pods.map podRecord

/-- Spec section 4.3 contract `next_link`: the pagination part of the
callback (lines 21-23).  It produces a URL exactly when the callback
yields a follow-up request, i.e. when the first matched href is truthy. -/
def next_link (resolve : String → String → String) (r : Response) :
    Option String :=
  match next_page_link r with
  | some href => if href = "" then none else some (resolve r.url href)
  | none => none

/-- The callback is the item stream of `extract` followed by the optional
request of `next_link`. -/
theorem responseParser_decomposition (resolve : String → String → String)
    (r : Response) :
    responseParser resolve r =
      (extract r).map ParserOutput.item ++
        (next_link resolve r).toList.map ParserOutput.request := by
  unfold responseParser extract next_link
  cases h : next_page_link r with
  | none => simp
  | some href =>
    by_cases he : href = "" <;> simp [he, List.map_map]

/-- Outcome of a crawl run in the driver model. `outOfFuel` means the loop
had not finished within the given number of iterations. -/
inductive Outcome where
  | done
  | fetchFailed (url : String)
  | outOfFuel
  deriving DecidableEq

/-- Modelled from the spec: the Crawl Driver of spec section 4.4.  The
scheduling loop itself lives in the Scrapy framework (`CrawlerProcess`,
request scheduler), which is not part of this repository; the spec
describes it as a strictly sequential loop that fetches the pending URL,
emits the extracted records in order, follows the next link when present,
stops with success when it is absent, and stops propagating the failure
when a fetch fails.  The per-page behavior (`extract`, `next_link`) is the
src callback.  `fuel` bounds the recursion so the function is total; a
run that has not terminated within `fuel` pages ends in `outOfFuel`. -/
def crawl (fetch : String → Option Response)
    (resolve : String → String → String) :
    Nat → String → List Record × Outcome
  | 0, _ => ([], Outcome.outOfFuel)
  | fuel + 1, u =>
    match fetch u with
    | none => ([], Outcome.fetchFailed u)
    | some r =>
      match next_link resolve r with
      | none => (extract r, Outcome.done)
      | some nu =>
        let rest := crawl fetch resolve fuel nu
        (extract r ++ rest.1, rest.2)

/-- Lines 27-37 of `books.py`: `book_spider_result` connects a dispatcher
callback that appends every scraped item to `books_results`, runs the
crawl, and returns only the accumulated list; the run outcome is not part
of the return value. -/
def book_spider_result (fetch : String → Option Response)
    (resolve : String → String → String) (fuel : Nat) (seed : String) :
    List Record :=
  (crawl fetch resolve fuel seed).1

/-- Line 11 of `books.py`: the seed URL of `start_requests`. -/
def start_url : String := "https://books.toscrape.com/"

/-- Line 42 of `books.py`: `books_data[0].keys()`; every record dict is
built with the same literal, so the key order is always title, price. -/
def recordKeys (_ : Record) : List String := ["title", "price"]

/-- DictWriter field lookup by key name. -/
def fieldValue (r : Record) (k : String) : Option String :=
  if k = "title" then r.title else if k = "price" then r.price else none

/-- One CSV data row: values in the column order of `keys`, with `None`
rendered as the empty string (csv module behavior). -/
def recordRow (keys : List String) (r : Record) : List String :=
  keys.map (fun k => (fieldValue r k).getD "")

/-- Lines 40-47 of `books.py`: derive the column names from the first
record (an IndexError when the crawl produced no records, raised before
the output file is opened), then write the header row and one data row
per record, in order.  The rows of the produced file on success, the
raised error otherwise. -/
def main_csv (books_data : List Record) : Except String (List (List String)) :=
  match books_data with
  | [] => Except.error "IndexError: list index out of range"
  | first :: _ =>
    let keys := recordKeys first
    Except.ok (keys :: books_data.map (recordRow keys))

/-! Concrete fixtures used by witnesses. -/

/-- An entry whose title attribute matched and whose price text matched. -/
def podA : ProductPod := ⟨["A"], ["p10"]⟩

/-- An entry whose price selection matched nothing. -/
def podB : ProductPod := ⟨["B"], []⟩

/-- A third entry with both selections matching. -/
def podC : ProductPod := ⟨["C"], ["p5"]⟩

/-- An entry on which both selections matched nothing. -/
def podNull : ProductPod := ⟨[], []⟩

/-- Identity resolution: every href in the fixtures is already absolute. -/
def resolveId : String → String → String := fun _ href => href

/-- Fixture page at URL a with two entries and a next link to b. -/
def page1 : Response := ⟨"a", [podA, podB], [some "b"]⟩

/-- Fixture page at URL b with one entry and a next link to c. -/
def page2 : Response := ⟨"b", [podC], [some "c"]⟩

/-- Fixture page at URL c with one all-null entry and no next node. -/
def page3 : Response := ⟨"c", [podNull], []⟩

/-- A page whose only next node carries an empty href attribute. -/
def emptyHrefPage : Response := ⟨"a", [podA], [some ""]⟩

/-- Fixture fetch over the three-page chain a, b, c. -/
def chainFetch : String → Option Response := fun u =>
  if u = "a" then some page1
  else if u = "b" then some page2
  else if u = "c" then some page3
  else none

/-! ## C2: one record per catalog-entry node, in document order -/

/-- C2: for every page with N product-pod nodes, `extract` produces exactly
N records, and the record at every position i is the one built from the
node at position i, so records appear in the document order of the matched
nodes. -/
theorem books_extract_count_order (r : Response) :
    (extract r).length = r.product_pods.length ∧
    ∀ i : Nat, (extract r)[i]? = (r.product_pods[i]?).map podRecord := by
  constructor
  · simp [extract]
  · intro i
    simp [extract]

/-! ## C3: missing fields become None, the record is still emitted -/

/-- C3: a product-pod node whose price selection (or title selection)
matched nothing still yields a record, at its own document position, with
the missing field bound to none; in particular the node with both
selections empty yields the all-null record. -/
theorem books_extract_missing_field (r : Response) (i : Nat)
    (pod : ProductPod) (hp : r.product_pods[i]? = some pod) :
    (extract r)[i]? = some (podRecord pod) ∧
    (pod.price_texts = [] → (podRecord pod).price = none) ∧
    (pod.title_attrs = [] → (podRecord pod).title = none) := by
  refine ⟨?_, ?_, ?_⟩
  · simp [extract, hp]
  · intro h
    simp [podRecord, extract_first, h]
  · intro h
    simp [podRecord, extract_first, h]

/-- Witness for C3 at the all-null entry of page3: the record is emitted
with both fields none. -/
theorem books_extract_missing_field_witness :
    (extract page3)[0]? = some (podRecord podNull) ∧
    (podRecord podNull).price = none ∧ (podRecord podNull).title = none :=
  have h := books_extract_missing_field page3 0 podNull rfl
  ⟨h.1, h.2.1 rfl, h.2.2 rfl⟩

/-! ## C6: extraction is a pure function of the page content -/

/-- C6: `extract` depends only on the product-pod content of the page, so
two invocations on pages with identical entry content, in particular two
invocations on the same page, yield element-for-element equal record
sequences. -/
theorem books_extract_pure (r1 r2 : Response)
    (h : r1.product_pods = r2.product_pods) : extract r1 = extract r2 := by
  simp [extract, h]

/-- Witness for C6: two responses differing in URL and next nodes but with
the same entries extract to the same records. -/
theorem books_extract_pure_witness :
    extract ⟨"a", [podA, podB], [some "b"]⟩ =
      extract ⟨"z", [podA, podB], []⟩ :=
  books_extract_pure ⟨"a", [podA, podB], [some "b"]⟩ ⟨"z", [podA, podB], []⟩ rfl

/-! ## C4: when next_link returns none -/

/-- C4 counterexample: `emptyHrefPage` contains a next navigation node
(one `li.next a` node, carrying the href attribute with value the empty
string), yet `next_link` returns none, because the source checks the
extracted href with Python truthiness and the empty string is falsy.  So
the claim that none is returned only when the page has no next node fails
at this page. -/
theorem books_next_link_counterexample :
    emptyHrefPage.next_nodes = [some ""] ∧
    emptyHrefPage.next_nodes ≠ [] ∧
    next_link resolveId emptyHrefPage = none := by
  refine ⟨rfl, by simp [emptyHrefPage], rfl⟩

/-- C4 amended: `next_link` returns none iff the first extracted href
among the next navigation nodes is absent or is the empty string; when
that first href is a non-empty string s, `next_link` returns s resolved
against the response URL and the callback yields a follow-up request for
exactly that URL, so the crawl continues with it. -/
theorem books_next_link_amended (resolve : String → String → String)
    (r : Response) :
    (next_link resolve r = none ↔
      (next_page_link r = none ∨ next_page_link r = some "")) ∧
    ∀ s : String, next_page_link r = some s → s ≠ "" →
      next_link resolve r = some (resolve r.url s) ∧
      ParserOutput.request (resolve r.url s) ∈ responseParser resolve r := by
  constructor
  · unfold next_link
    cases h : next_page_link r with
    | none => simp
    | some s =>
      by_cases he : s = "" <;> simp [he]
  · intro s hs hne
    unfold next_link responseParser
    simp [hs, hne]

/-- Witness for C4 amended at page1, whose only next node has href b. -/
theorem books_next_link_amended_witness :
    next_link resolveId page1 = some "b" ∧
    ParserOutput.request "b" ∈ responseParser resolveId page1 :=
  (books_next_link_amended resolveId page1).2 "b" rfl (by decide)

/-! ## C7: CSV layout for a non-empty crawl result -/

/-- C7: for a non-empty crawl result, the produced CSV is the key names of
the first emitted record, in that record key order (title then price),
followed by one data row per record in emission order, with values in the
same column order and none rendered as the empty string. -/
theorem books_csv_layout (first : Record) (rest : List Record) :
    main_csv (first :: rest) =
      Except.ok (["title", "price"] ::
        (first :: rest).map (fun r => [r.title.getD "", r.price.getD ""])) := by
  simp [main_csv, recordKeys, recordRow, fieldValue]

/-! ## C10: empty crawl result makes the CLI fail before writing -/

/-- C10: when the crawl run emits zero records, the CLI step fails with an
IndexError while deriving the CSV schema from the first record, producing
no header row and no data row, rather than an empty CSV. -/
theorem books_empty_result_index_error (fetch : String → Option Response)
    (resolve : String → String → String) (fuel : Nat) (seed : String)
    (h : book_spider_result fetch resolve fuel seed = []) :
    main_csv (book_spider_result fetch resolve fuel seed) =
      Except.error "IndexError: list index out of range" := by
  rw [h]
  rfl

/-- Witness for C10: a run whose very first fetch fails emits no records,
and the CLI step errors on it. -/
theorem books_empty_result_index_error_witness :
    main_csv (book_spider_result (fun _ => none) resolveId 1 "a") =
      Except.error "IndexError: list index out of range" :=
  books_empty_result_index_error (fun _ => none) resolveId 1 "a" rfl

/-! ## C1: crawling a finite forward chain -/

/-- A finite forward chain of pages: each URL fetches its page, every page
except the last links to the next URL in the chain, and only the last page
lacks a next link. -/
inductive Chain (fetch : String → Option Response)
    (resolve : String → String → String) : String → List Response → Prop where
  | last (u : String) (r : Response) :
      fetch u = some r → next_link resolve r = none →
      Chain fetch resolve u [r]
  | cons (u : String) (r : Response) (nu : String) (rest : List Response) :
      fetch u = some r → next_link resolve r = some nu →
      Chain fetch resolve nu rest → Chain fetch resolve u (r :: rest)

/-- C1: one crawl run over a finite chain whose last page alone lacks a
next link emits exactly the concatenation of the per-page extractions, in
visit order (each page contributing its records in document order), and
terminates with done after the last page. -/
theorem books_chain_crawl (fetch : String → Option Response)
    (resolve : String → String → String) (u : String) (rs : List Response)
    (hc : Chain fetch resolve u rs) (fuel : Nat) (hf : rs.length ≤ fuel) :
    crawl fetch resolve fuel u = ((rs.map extract).flatten, Outcome.done) := by
  induction hc generalizing fuel with
  | last v r hfetch hnext =>
    cases fuel with
    | zero => simp at hf
    | succ n => simp [crawl, hfetch, hnext]
  | cons v r nu rest hfetch hnext hchain ih =>
    cases fuel with
    | zero => simp at hf
    | succ n =>
      have hlen : rest.length ≤ n := by
        simpa using hf
      simp [crawl, hfetch, hnext, ih n hlen]

/-- Witness for C1: the three-page fixture chain a, b, c yields the
concatenation of the three extractions and terminates with done. -/
theorem books_chain_crawl_witness :
    crawl chainFetch resolveId 3 "a" =
      (([page1, page2, page3].map extract).flatten, Outcome.done) :=
  books_chain_crawl chainFetch resolveId "a" [page1, page2, page3]
    (Chain.cons "a" page1 "b" [page2, page3] rfl rfl
      (Chain.cons "b" page2 "c" [page3] rfl rfl
        (Chain.last "c" page3 rfl rfl)))
    3 (by decide)

/-! ## C5: a failing fetch truncates the result and is reported -/

/-- C5: when the first page loads and links onward but fetching the second
URL fails, the crawl emits exactly the records of the first page — nothing
from the failed page or beyond — and ends in the fetchFailed outcome
carrying the failed URL, which differs from the done outcome of every
successful run (in particular a successful run over an empty page). -/
theorem books_fetch_failure_truncates (fetch : String → Option Response)
    (resolve : String → String → String) (u1 : String) (r1 : Response)
    (nu : String) (h1 : fetch u1 = some r1)
    (h2 : next_link resolve r1 = some nu) (h3 : fetch nu = none)
    (fuel : Nat) (hf : 2 ≤ fuel) :
    crawl fetch resolve fuel u1 = (extract r1, Outcome.fetchFailed nu) ∧
    book_spider_result fetch resolve fuel u1 = extract r1 ∧
    Outcome.fetchFailed nu ≠ Outcome.done := by
  obtain ⟨n, rfl⟩ : ∃ n, fuel = n + 2 := ⟨fuel - 2, by omega⟩
  have hc : crawl fetch resolve (n + 2) u1 =
      (extract r1, Outcome.fetchFailed nu) := by
    simp [crawl, h1, h2, h3]
  exact ⟨hc, by simp [book_spider_result, hc], by simp⟩

/-- Fetch over the fixture chain in which the page at b is unreachable. -/
def failFetch : String → Option Response := fun u =>
  if u = "a" then some page1 else none

/-- Witness for C5: with page b unreachable, the run returns exactly the
records of page1 and the outcome names the failed URL. -/
theorem books_fetch_failure_truncates_witness :
    crawl failFetch resolveId 2 "a" = (extract page1, Outcome.fetchFailed "b") ∧
    book_spider_result failFetch resolveId 2 "a" = extract page1 ∧
    Outcome.fetchFailed "b" ≠ Outcome.done :=
  books_fetch_failure_truncates failFetch resolveId "a" page1 "b"
    rfl rfl rfl 2 (by decide)

/-! ## C8: a pagination cycle loops forever -/

/-- C8: the driver keeps no visited-URL set, so an already-visited URL is
simply fetched again: whenever every URL of a set S fetches a page whose
next link resolves back into S, a crawl started anywhere in S runs out of
any amount of fuel without ever reaching done or a fetch failure — a
pagination cycle loops forever, and termination relies solely on some
page lacking a truthy next link. -/
theorem books_cycle_diverges (fetch : String → Option Response)
    (resolve : String → String → String) (S : List String)
    (hS : ∀ v ∈ S, ∃ r nu, fetch v = some r ∧
      next_link resolve r = some nu ∧ nu ∈ S) :
    ∀ fuel : Nat, ∀ u ∈ S, (crawl fetch resolve fuel u).2 = Outcome.outOfFuel := by
  intro fuel
  induction fuel with
  | zero =>
    intro u hu
    simp [crawl]
  | succ n ih =>
    intro u hu
    obtain ⟨r, nu, hr, hn, hnu⟩ := hS u hu
    simp [crawl, hr, hn, ih nu hnu]

/-- A page whose next link points back to its own URL. -/
def cyclePage : Response := ⟨"a", [podA], [some "a"]⟩

/-- Fetch for the self-loop fixture. -/
def cycleFetch : String → Option Response := fun u =>
  if u = "a" then some cyclePage else none

/-- Witness for C8: the self-loop at a exhausts any fuel, here 5. -/
theorem books_cycle_diverges_witness :
    (crawl cycleFetch resolveId 5 "a").2 = Outcome.outOfFuel :=
  books_cycle_diverges cycleFetch resolveId ["a"]
    (fun v hv => by
      rw [List.mem_singleton] at hv
      subst hv
      exact ⟨cyclePage, "a", rfl, rfl, List.mem_singleton.mpr rfl⟩)
    5 "a" (List.mem_singleton.mpr rfl)

/-! ## C9: the crawl is deterministic in the page contents -/

/-- C9: two crawl runs over pointwise-equal fetch and resolve functions —
every fetch of a given URL returns the same page — from the same seed with
the same fuel produce identical record sequences and identical outcomes:
emission order is a function of the page contents alone. -/
theorem books_crawl_deterministic (f1 f2 : String → Option Response)
    (res1 res2 : String → String → String)
    (hf : ∀ u, f1 u = f2 u) (hres : ∀ u h, res1 u h = res2 u h) :
    ∀ (fuel : Nat) (u : String),
      crawl f1 res1 fuel u = crawl f2 res2 fuel u := by
  have hresolve : ∀ r : Response, next_link res1 r = next_link res2 r := by
    intro r
    unfold next_link
    cases next_page_link r with
    | none => rfl
    | some s =>
      by_cases he : s = "" <;> simp [he, hres]
  intro fuel
  induction fuel with
  | zero =>
    intro u
    rfl
  | succ n ih =>
    intro u
    simp only [crawl, hf u]
    cases f2 u with
    | none => rfl
    | some r =>
      simp only [hresolve r]
      cases next_link res2 r with
      | none => rfl
      | some nu => simp [ih nu]

/-- The chain fetch written with its branches in the opposite order; it
agrees with chainFetch pointwise. -/
def chainFetchAlt : String → Option Response := fun u =>
  if u = "c" then some page3
  else if u = "b" then some page2
  else if u = "a" then some page1
  else none

/-- chainFetch and chainFetchAlt return the same page for every URL. -/
theorem chainFetch_eq_alt (u : String) : chainFetch u = chainFetchAlt u := by
  by_cases h1 : u = "a"
  · subst h1; rfl
  · by_cases h2 : u = "b"
    · subst h2; rfl
    · by_cases h3 : u = "c"
      · subst h3; rfl
      · simp [chainFetch, chainFetchAlt, h1, h2, h3]

/-- Witness for C9: the two pointwise-equal fetches crawl identically on
the fixture chain. -/
theorem books_crawl_deterministic_witness :
    crawl chainFetch resolveId 3 "a" = crawl chainFetchAlt resolveId 3 "a" :=
  books_crawl_deterministic chainFetch chainFetchAlt resolveId resolveId
    chainFetch_eq_alt (fun _ _ => rfl) 3 "a"

end Books
